import Mathlib

/-!
Verification development for the downcache repository: a shallow embedding of
its cache-consistency and query engine (taxonomy counter, filter translator,
paginator, in-memory and SQLite store fronts, and the sync coordinator), with
theorems settling the spec claims against the code.
-/

namespace Downcache

/-! ## String helpers

Executable models of the Go string primitives used by the code
(strings.HasPrefix, strings.TrimPrefix, strings.Contains, strings.ToLower,
byte-wise comparison), written over character lists so that the kernel can
evaluate them on concrete inputs. -/

/-- Lexicographic comparison of character lists by code point, the model of
Go byte-slice comparison used by bbolt cursors. -/
def charsLt : List Char → List Char → Bool
  | [], [] => false
  | [], _ :: _ => true
  | _ :: _, [] => false
  | a :: as, b :: bs =>
    if a.val < b.val then true
    else if b.val < a.val then false
    else charsLt as bs

/-- Model of byte-wise string comparison (Go `a < b` on byte slices). -/
def strLtb (s t : String) : Bool :=
  charsLt s.data t.data

/-- Model of Go strings.Compare: -1, 0, or 1. -/
def strCompare (s t : String) : Int :=
  if strLtb s t then -1 else if strLtb t s then 1 else 0

/-- Character-list version of Go strings.HasPrefix. -/
def charsPfx : List Char → List Char → Bool
  | [], _ => true
  | _ :: _, [] => false
  | a :: as, b :: bs => a == b && charsPfx as bs

/-- Model of Go strings.HasPrefix (the candidate second, as in the source). -/
def strHasPfx (s p : String) : Bool :=
  charsPfx p.data s.data

/-- Model of Go strings.TrimPrefix: removes the leading occurrence, otherwise
returns the string unchanged. -/
def strTrimPfx (s p : String) : String :=
  if strHasPfx s p then ⟨s.data.drop p.data.length⟩ else s

/-- Model of Go strings.Contains: substring containment. -/
def strContains (s sub : String) : Bool :=
  (List.range (s.data.length + 1)).any (fun i => charsPfx sub.data (s.data.drop i))

/-- Model of Go strings.ToLower. -/
def strLower (s : String) : String :=
  ⟨s.data.map Char.toLower⟩

/-! ## Data model

The Post record (post.go) restricted to the fields the core claims read, and
the FilterOptions shape from the in-memory backend generation. The published
timestamp is modelled as a natural number (the code compares parsed
time.Time values only through Before/After). -/

/-- Model of the Post record (post.go). -/
structure Post where
  postType : String := ""
  slug : String := ""
  name : String := ""
  author : String := ""
  content : String := ""
  status : String := ""
  visibility : String := ""
  pinned : Bool := false
  published : Nat := 0
  properties : List (String × String) := []
  taxonomies : List (String × List String) := []
deriving DecidableEq

/-- Model of FilterOptions for the in-memory backend family. -/
structure FilterOptions where
  pageNum : Int := 0
  pageSize : Int := 0
  sortBy : List String := []
  filterAuthor : String := ""
  filterProperties : List (String × String) := []
  filterTaxonomies : List (String × String) := []
  filterSearch : String := ""
  filterPostType : String := ""
  filterStatus : String := ""
  filterVisibility : String := ""
  splitPinned : Bool := false
deriving DecidableEq

/-- Go map lookup over an association list (first binding wins). -/
def lookupKV {β : Type} (l : List (String × β)) (k : String) : Option β :=
  (l.find? (fun p => p.1 == k)).map Prod.snd

/-- Go map deletion over an association list. -/
def eraseKV {β : Type} (l : List (String × β)) (k : String) : List (String × β) :=
  l.filter (fun p => !(p.1 == k))

/-- Go map insertion (put replaces any existing binding for the key). -/
def insertKV {β : Type} (l : List (String × β)) (k : String) (v : β) : List (String × β) :=
  eraseKV l k ++ [(k, v)]

/-! ## Taxonomy counter (downgoblin.go)

The bbolt taxonomies bucket is modelled as an association list from the
string key taxonomy ++ ":" ++ term to the stored count (a uint64 written
big-endian in the source; counts are floored at zero before storing, so Nat
is exact). -/

/-- The bucket key built by updateTaxonomyCount via fmt.Sprintf. -/
def taxKey (taxonomy term : String) : String :=
  taxonomy ++ ":" ++ term

/-- The taxonomies bucket: key to stored count. -/
abbrev TaxBucket := List (String × Nat)

/-- Model of DownCache.updateTaxonomyCount (downgoblin.go): reads the current
count (0 when absent), adds the delta, floors at zero, deletes the entry when
the result is zero and stores it otherwise. -/
def updateTaxonomyCount (b : TaxBucket) (taxonomy term : String) (delta : Int) : TaxBucket :=
  let key := taxKey taxonomy term
  let count : Int :=
    match lookupKV b key with
    | some c => (c : Int)
    | none => 0
  let count := count + delta
  let count := if count < 0 then 0 else count
  if count == 0 then eraseKV b key else insertKV b key count.toNat

/-- Model of the taxonomy-count effect of DownCache.IndexPost
(downgoblin.go): when a current record exists, each of its terms that is
absent from the new record is decremented; afterwards every term of the new
record is incremented. -/
def indexPostTaxonomy (currentPage : Option Post) (doc : Post) (b : TaxBucket) : TaxBucket :=
  let b :=
    match currentPage with
    | none => b
    | some cur =>
      cur.taxonomies.foldl
        (fun b p =>
          p.2.foldl
            (fun b term =>
              if !(((lookupKV doc.taxonomies p.1).getD []).contains term) then
                updateTaxonomyCount b p.1 term (-1)
              else b)
            b)
        b
  doc.taxonomies.foldl
    (fun b p => p.2.foldl (fun b term => updateTaxonomyCount b p.1 term 1) b)
    b

/-- Model of the taxonomy-count effect of DownCache.DeIndexPost
(downgoblin.go): every term of the removed record is decremented. -/
def deindexPostTaxonomy (doc : Post) (b : TaxBucket) : TaxBucket :=
  doc.taxonomies.foldl
    (fun b p => p.2.foldl (fun b term => updateTaxonomyCount b p.1 term (-1)) b)
    b

/-- A sequence of raw counter operations (taxonomy, term, delta) applied in
order; the create/index/deindex paths only ever call updateTaxonomyCount, so
any interleaving of their effects is such a sequence. -/
def applyTaxOps (ops : List (String × String × Int)) : TaxBucket :=
  ops.foldl (fun b op => updateTaxonomyCount b op.1 op.2.1 op.2.2) []

/-- Insertion sort used to model sorted iteration and Go sort.Slice (the
source relies on an unspecified comparison sort; any comparison sort is a
faithful model). -/
def insertLe {α : Type} (le : α → α → Bool) (a : α) : List α → List α
  | [] => [a]
  | b :: bs => if le a b then a :: b :: bs else b :: insertLe le a bs

/-- Sorts a list with the given boolean order. -/
def sortLe {α : Type} (le : α → α → Bool) (l : List α) : List α :=
  l.foldr (insertLe le) []

/-- Model of DownCache.GetTaxonomyTerms (bbolt generation): a cursor over the
sorted bucket keys seeks to taxonomy ++ ":", scans while the key keeps the
taxonomy as a plain text head, and trims taxonomy ++ ":" from each key. -/
def getTaxonomyTerms (b : TaxBucket) (taxonomy : String) : List String :=
  let keys := sortLe (fun a b => !(strLtb b a)) (b.map Prod.fst)
  let seekKey := taxonomy ++ ":"
  let afterSeek := keys.dropWhile (fun k => strLtb k seekKey)
  let scanned := afterSeek.takeWhile (fun k => strHasPfx k taxonomy)
  scanned.map (fun k => strTrimPfx k seekKey)

/-! ## In-memory store (markdown.go, MemoryCacheStore) -/

/-- Model of MemoryCacheStore.makeKey. -/
def makeKey (postType slug : String) : String :=
  postType ++ ":" ++ slug

/-- The in-memory posts map, as an association list keyed by makeKey. -/
abbrev MemStore := List (String × Post)

/-- Model of MemoryCacheStore.Create: fails when the key exists, otherwise
stores the post. -/
def memCreate (m : MemStore) (post : Post) : Except String MemStore :=
  let key := makeKey post.postType post.slug
  if (lookupKV m key).isSome then Except.error ("post already exists: " ++ key)
  else Except.ok (insertKV m key post)

/-- Model of MemoryCacheStore.Get: fails when the key is absent. -/
def memGet (m : MemStore) (postType slug : String) : Except String Post :=
  match lookupKV m (makeKey postType slug) with
  | some p => Except.ok p
  | none => Except.error ("post not found: " ++ makeKey postType slug)

/-- Model of MemoryCacheStore.matchesKeyValueFilter. -/
def matchesKeyValueFilter (data : List (String × String)) (filter : String × String) : Bool :=
  match lookupKV data filter.1 with
  | none => false
  | some v => v == filter.2

/-- Model of MemoryCacheStore.matchesKeyValueFilterSlice. -/
def matchesKeyValueFilterSlice (data : List (String × List String)) (filter : String × String) : Bool :=
  match lookupKV data filter.1 with
  | none => false
  | some values => values.contains filter.2

/-- Model of MemoryCacheStore.postMatchesFilters, clause for clause: post
type unless the any sentinel, then status, visibility, author, free-text
search, properties, and taxonomies; an empty status or visibility filter
applies no constraint at all. -/
def postMatchesFilters (post : Post) (options : FilterOptions) : Bool :=
  if options.filterPostType != "any" && options.filterPostType != post.postType then false
  else if options.filterStatus != "" && options.filterStatus != post.status then false
  else if options.filterVisibility != "" && options.filterVisibility != post.visibility then false
  else if options.filterAuthor != "" && !(strContains post.author options.filterAuthor) then false
  else if options.filterSearch != "" && !(strContains (strLower post.content) (strLower options.filterSearch)) then false
  else if !(options.filterProperties.all (fun prop => matchesKeyValueFilter post.properties prop)) then false
  else if !(options.filterTaxonomies.all (fun tax => matchesKeyValueFilterSlice post.taxonomies tax)) then false
  else true

/-- Model of compareBool (markdown.go). -/
def compareBool (a b : Bool) : Int :=
  if a == b then 0 else if a then 1 else -1

/-- Model of compareTime (markdown.go) on the abstract published stamp. -/
def compareTime (a b : Nat) : Int :=
  if a < b then -1 else if b < a then 1 else 0

/-- The sort.Slice comparator built by MemoryCacheStore.sortPosts: fields in
list order, a leading dash means descending, unrecognized fields are
skipped. -/
def sortPostsLess : List String → Post → Post → Bool
  | [], _, _ => false
  | field :: rest, a, b =>
    let desc := strHasPfx field "-"
    let f := if desc then strTrimPfx field "-" else field
    let cmp : Option Int :=
      if f == "pinned" then some (compareBool a.pinned b.pinned)
      else if f == "published" then some (compareTime a.published b.published)
      else if f == "name" then some (strCompare a.slug b.slug)
      else none
    match cmp with
    | none => sortPostsLess rest a b
    | some c =>
      if c != 0 then (if desc then c > 0 else c < 0)
      else sortPostsLess rest a b

/-- Model of MemoryCacheStore.sortPosts. -/
def sortPosts (posts : List Post) (sortBy : List String) : List Post :=
  sortLe (fun a b => !(sortPostsLess sortBy b a)) posts

/-- Model of MemoryCacheStore.splitPinned: one pass that appends each post to
the pinned or the non-pinned list. -/
def splitPinned (posts : List Post) : List Post × List Post :=
  posts.foldl
    (fun acc post => if post.pinned then (acc.1 ++ [post], acc.2) else (acc.1, acc.2 ++ [post]))
    ([], [])

/-- Model of MemoryCacheStore.getPaginationBounds: start is not clamped, end
is clamped to the item count. -/
def getPaginationBounds (pageNum pageSize totalItems : Int) : Int × Int :=
  let start := (pageNum - 1) * pageSize
  let stop := start + pageSize
  let stop := if stop > totalItems then totalItems else stop
  (start, stop)

/-- Model of the Go slice expression xs[start:stop]: defined exactly when
0 ≤ start ≤ stop ≤ len(xs), and a runtime panic (none) otherwise. -/
def goSlice {α : Type} (xs : List α) (start stop : Int) : Option (List α) :=
  if 0 ≤ start ∧ start ≤ stop ∧ stop ≤ (xs.length : Int) then
    some ((xs.drop start.toNat).take (stop - start).toNat)
  else none

/-- The filtered set computed by MemoryCacheStore.Search before any
sorting or pagination. -/
def searchFiltered (posts : List Post) (options : FilterOptions) : List Post :=
  posts.filter (fun post => postMatchesFilters post options)

/-- The sorted filtered set of MemoryCacheStore.Search. -/
def searchSorted (posts : List Post) (options : FilterOptions) : List Post :=
  sortPosts (searchFiltered posts options) options.sortBy

/-- The pinned part of the sorted, filtered, pre-pagination set. -/
def searchPinned (posts : List Post) (options : FilterOptions) : List Post :=
  (searchSorted posts options).filter (fun p => p.pinned)

/-- The non-pinned remainder of the sorted, filtered, pre-pagination set. -/
def searchNonPinned (posts : List Post) (options : FilterOptions) : List Post :=
  (searchSorted posts options).filter (fun p => !p.pinned)

/-- The pagination bounds used by Search after defaulting the page number
and size. -/
def pageBounds (options : FilterOptions) (totalItems : Int) : Int × Int :=
  getPaginationBounds (if options.pageNum ≤ 0 then 1 else options.pageNum)
    (if options.pageSize ≤ 0 then 10 else options.pageSize) totalItems

/-- Model of MemoryCacheStore.Search: filter, count the total, sort, split
the pinned posts when requested, default the page number and size, slice the
remainder, and prepend the pinned posts to the returned page. The slice is
the Go slice expression, so the whole search is none when it panics. -/
def memSearch (posts : List Post) (options : FilterOptions) : Option (List Post × Nat) :=
  let filtered := searchFiltered posts options
  let totalCount := filtered.length
  let sorted := sortPosts filtered options.sortBy
  let split := if options.splitPinned then splitPinned sorted else ([], sorted)
  let pageNum := if options.pageNum ≤ 0 then 1 else options.pageNum
  let pageSize := if options.pageSize ≤ 0 then 10 else options.pageSize
  let bounds := getPaginationBounds pageNum pageSize (split.2.length : Int)
  (goSlice split.2 bounds.1 bounds.2).map
    (fun page => ((if options.splitPinned then split.1 ++ page else page), totalCount))

/-! ## Paginator (markdown.go, NewPaginator) -/

/-- Model of the Paginator record. -/
structure Paginator where
  totalPages : Int
  currentPage : Int
  nextPage : Int
  prevPage : Int
  pageSize : Int
  hasNext : Bool
  hasPrev : Bool
  hasPosts : Bool
  totalPosts : Int
  allPosts : List Post
  featuredPosts : List Post
  nonFeaturedPosts : List Post
  visible : Bool
deriving DecidableEq

/-- Model of NewPaginator (markdown.go), field for field; Go integer
division truncates toward zero, hence Int.tdiv. -/
def NewPaginator (docs : List Post) (total currentPage pageSize : Int) (includeFeatured : Bool) : Paginator :=
  let totalPages := Int.tdiv (total + pageSize - 1) pageSize
  let nextPage := currentPage + 1
  let prevPage := currentPage - 1
  let hasNext := currentPage < totalPages
  let hasPrev := currentPage > 1
  let lenDocs : Int := (docs.length : Int)
  let hasDocs := lenDocs > 0
  let nextPage := if nextPage > totalPages then totalPages else nextPage
  let prevPage := if prevPage < 1 then 1 else prevPage
  let split := if includeFeatured then splitPinned docs else ([], docs)
  { totalPages := totalPages
    currentPage := currentPage
    nextPage := nextPage
    prevPage := prevPage
    pageSize := pageSize
    hasNext := hasNext
    hasPrev := hasPrev
    hasPosts := hasDocs
    totalPosts := lenDocs
    allPosts := docs
    featuredPosts := split.1
    nonFeaturedPosts := split.2
    visible := true }

/-! ## SQLite store front (sqlitestore/sqlitestore.go, second generation)

The canonical posts table carries a UNIQUE index on post_id, and Create runs
REPLACE INTO: an insert that conflicts on post_id deletes the existing row
and inserts the new one, reporting success. The table is modelled as an
association list keyed by post_id. -/

/-- Model of PostPathID (post.go): postType plus a slash plus slug. -/
def PostPathID (postType slug : String) : String :=
  postType ++ "/" ++ slug

/-- Model of SQLiteStore.Create: REPLACE INTO against the UNIQUE post_id
index replaces any conflicting row and never fails with an already-exists
error; the result is the new table and the stored post. -/
def sqliteCreate (table : List (String × Post)) (post : Post) : List (String × Post) × Post :=
  let postID := PostPathID post.postType post.slug
  (table.filter (fun r => !(r.1 == postID)) ++ [(postID, post)], post)

/-! ## Sync coordinator (DownCache, unnamed/part_003)

The coordinator is modelled against abstract collaborator outcomes: each
filesystem or store call is represented by its result (none means success for
error-only calls), and the model also returns the trace of collaborator calls
it issued, so that call order and presence are provable facts. -/

/-- One collaborator call issued by the coordinator. -/
inductive SyncCall where
  | fsWrite (key : String)
  | storeCreate (key : String)
  | fsDelete (key : String)
deriving DecidableEq

/-- The outcome of DownCache.Create. -/
inductive CreateResult where
  | ok (post : Post)
  | fsWriteFailed (err : String)
  | storeFailed (err : String)
  | rollbackFailed (delErr err : String)
deriving DecidableEq

/-- Model of DownCache.Create (unnamed/part_003): write to the filesystem;
on success call Store.Create; if that fails attempt the compensating
filesystem delete, returning the original store error when the delete
succeeds and an error naming both failures when it does not. The second
component is the trace of collaborator calls. -/
def dcCreate (fsWriteErr : Option String) (storeCreateErr : Option String)
    (fsDeleteErr : Option String) (post : Post) : CreateResult × List SyncCall :=
  let key := PostPathID post.postType post.slug
  match fsWriteErr with
  | some e => (CreateResult.fsWriteFailed e, [SyncCall.fsWrite key])
  | none =>
    match storeCreateErr with
    | none => (CreateResult.ok post, [SyncCall.fsWrite key, SyncCall.storeCreate key])
    | some e =>
      match fsDeleteErr with
      | some de =>
        (CreateResult.rollbackFailed de e,
          [SyncCall.fsWrite key, SyncCall.storeCreate key, SyncCall.fsDelete key])
      | none =>
        (CreateResult.storeFailed e,
          [SyncCall.fsWrite key, SyncCall.storeCreate key, SyncCall.fsDelete key])

/-- Model of the per-post loop body of DownCache.SyncAll followed by the
drain of the error channel: Store.Create is attempted for each streamed post;
on any Create error Store.Update is attempted; an Update error returns
immediately, aborting the walk. The result pairs the returned error (none on
success) with the list of post ids the loop reached. -/
def syncAllLoop (createErr updateErr : Post → Option String) :
    List Post → List String → (Option String × List String)
  | [], walkErrs =>
    match walkErrs with
    | [] => (none, [])
    | e :: _ => (some ("error walking filesystem: " ++ e), [])
  | post :: rest, walkErrs =>
    let pid := PostPathID post.postType post.slug
    match createErr post with
    | none =>
      let r := syncAllLoop createErr updateErr rest walkErrs
      (r.1, pid :: r.2)
    | some _ =>
      match updateErr post with
      | none =>
        let r := syncAllLoop createErr updateErr rest walkErrs
        (r.1, pid :: r.2)
      | some e =>
        (some ("error updating existing post " ++ post.postType ++ "/" ++ post.slug ++ ": " ++ e),
          [pid])

/-- Model of DownCache.SyncAll (unnamed/part_003) over the streamed posts and
the filesystem walk errors. -/
def syncAll (posts : List Post) (walkErrs : List String)
    (createErr updateErr : Post → Option String) : Option String × List String :=
  syncAllLoop createErr updateErr posts walkErrs

/-- Model of DownCache.Get (unnamed/part_003): return the store hit; on a
miss read the filesystem; on filesystem failure return the error; otherwise
refill the store with Store.Create and return newPost — the value Create
returned, which is the nil pointer (none) exactly when Create failed — with
a nil error. -/
def dcGet (storeGetRes : Except String Post) (fsReadRes : Except String Post)
    (storeCreateRes : Post → Except String Post) : Except String (Option Post) :=
  match storeGetRes with
  | Except.ok p => Except.ok (some p)
  | Except.error _ =>
    match fsReadRes with
    | Except.error e => Except.error ("post not found in store or filesystem: " ++ e)
    | Except.ok post =>
      match storeCreateRes post with
      | Except.ok newPost => Except.ok (some newPost)
      | Except.error _ => Except.ok none

/-! ## Bleve-backed query path (post_queries.go, GetPosts)

The status and visibility constraint construction of GetPosts: skipped
entirely for the any sentinel, defaulted when unset, exact term otherwise.
The constraint is modelled as the optional match value handed to the search
engine. -/

/-- Model of the status constraint built by DownCache.GetPosts: none when the
filter equals the any sentinel, the published default when unset, and the
given value otherwise. -/
def getPostsStatusMatch (filterStatus : String) : Option String :=
  if filterStatus != "any" then
    (if filterStatus != "" then some filterStatus else some "published")
  else none

/-- Model of the visibility constraint built by DownCache.GetPosts. -/
def getPostsVisibilityMatch (filterVisibility : String) : Option String :=
  if filterVisibility != "any" then
    (if filterVisibility != "" then some filterVisibility else some "public")
  else none

/-! ## Concrete instances used by counterexamples and witnesses -/

/-- The post id of a post, as built by the coordinator and SQLite front. -/
def postPid (p : Post) : String :=
  PostPathID p.postType p.slug

/-- A stored post carrying taxonomies tags: a, b (the update-diff example). -/
def postOldTags : Post :=
  { postType := "articles", slug := "p", taxonomies := [("tags", ["a", "b"])] }

/-- The updated post carrying taxonomies tags: b, c. -/
def postNewTags : Post :=
  { postType := "articles", slug := "p", taxonomies := [("tags", ["b", "c"])] }

/-- The taxonomy bucket after postOldTags was indexed once. -/
def bucketAB : TaxBucket :=
  [(taxKey "tags" "a", 1), (taxKey "tags" "b", 1)]

/-- Three stored posts used by the pagination examples. -/
def posts3 : List Post :=
  [{ postType := "articles", slug := "one" },
   { postType := "articles", slug := "two" },
   { postType := "articles", slug := "three" }]

/-- A filter asking for page 2 of size 10 with no constraints. -/
def optsPage2 : FilterOptions :=
  { pageNum := 2, pageSize := 10, filterPostType := "any" }

/-- A filter with page size 10 and no constraints, the page number left to
the caller. -/
def optsAny10 : FilterOptions :=
  { pageSize := 10, filterPostType := "any" }

/-- A post as read back from the filesystem collaborator. -/
def postFs : Post :=
  { postType := "articles", slug := "from-disk", name := "From Disk" }

/-- First creation of the identity articles/a. -/
def postFirst : Post :=
  { postType := "articles", slug := "a", name := "first" }

/-- Second creation of the same identity articles/a. -/
def postSecond : Post :=
  { postType := "articles", slug := "a", name := "second" }

/-- A memory store already holding the identity articles/a. -/
def memStoreOne : MemStore :=
  [(makeKey "articles" "a", postFirst)]

/-- A draft post. -/
def postDraft : Post :=
  { postType := "articles", slug := "d", status := "draft" }

/-- A filter with the status left unset. -/
def optsNoStatus : FilterOptions :=
  { filterPostType := "any" }

/-- Two posts streamed by a SyncAll walk. -/
def syncPostA : Post := { postType := "articles", slug := "a" }

/-- The second streamed post of the SyncAll walk. -/
def syncPostB : Post := { postType := "articles", slug := "b" }

/-- A store whose Create always reports an existing post. -/
def createAlways : Post → Option String := fun _ => some "post already exists"

/-- A store whose Update fails for slug a only. -/
def updateFailsA : Post → Option String :=
  fun p => if p.slug == "a" then some "backend failure" else none

/-- A counter history: two increments and one decrement of tags terms. -/
def opsC2 : List (String × String × Int) :=
  [("tags", "a", 1), ("tags", "b", 1), ("tags", "a", -1)]

/-- Seven filtered posts, two of them pinned, for the pinned-split scenario. -/
def posts7 : List Post :=
  [{ postType := "articles", slug := "n1" },
   { postType := "articles", slug := "p1", pinned := true },
   { postType := "articles", slug := "n2" },
   { postType := "articles", slug := "n3" },
   { postType := "articles", slug := "p2", pinned := true },
   { postType := "articles", slug := "n4" },
   { postType := "articles", slug := "n5" }]

/-- A pinned-split filter with page size 2, page 1. -/
def optsSplit1 : FilterOptions :=
  { pageNum := 1, pageSize := 2, filterPostType := "any", splitPinned := true }

/-- The same pinned-split filter on page 2. -/
def optsSplit2 : FilterOptions :=
  { pageNum := 2, pageSize := 2, filterPostType := "any", splitPinned := true }

/-! ## Helper lemmas -/

/-- Looking up the key just written by a Go map put finds the new value. -/
theorem lookupKV_insertKV_self {β : Type} (l : List (String × β)) (k : String) (v : β) :
    lookupKV (insertKV l k v) k = some v := by
  have hnone : (eraseKV l k).find? (fun p => p.1 == k) = none := by
    apply List.find?_eq_none.mpr
    intro p hp
    have := List.mem_filter.mp hp
    simpa using this.2
  simp [lookupKV, insertKV, List.find?_append, hnone]

/-- Membership through insertion into a sorted list. -/
theorem mem_insertLe {α : Type} (le : α → α → Bool) (x a : α) (l : List α) :
    a ∈ insertLe le x l ↔ a = x ∨ a ∈ l := by
  induction l with
  | nil => simp [insertLe]
  | cons b bs ih =>
    by_cases h : le x b = true
    · simp [insertLe, h]
    · simp only [insertLe, h]
      simp only [Bool.not_eq_true] at h
      simp [h, List.mem_cons, ih]
      tauto

/-- Membership is preserved by the model sort. -/
theorem mem_sortLe {α : Type} (le : α → α → Bool) (a : α) (l : List α) :
    a ∈ sortLe le l ↔ a ∈ l := by
  induction l with
  | nil => simp [sortLe]
  | cons b bs ih =>
    show a ∈ insertLe le b (sortLe le bs) ↔ _
    rw [mem_insertLe]
    simp [ih]

/-- The splitPinned fold is the pair of pinned and non-pinned filters. -/
theorem splitPinned_foldl (l : List Post) (acc : List Post × List Post) :
    l.foldl
        (fun acc post =>
          if post.pinned then (acc.1 ++ [post], acc.2) else (acc.1, acc.2 ++ [post]))
        acc
      = (acc.1 ++ l.filter (fun p => p.pinned), acc.2 ++ l.filter (fun p => !p.pinned)) := by
  induction l generalizing acc with
  | nil => simp
  | cons p ps ih =>
    by_cases hp : p.pinned = true
    · simp [hp, ih, List.filter_cons]
    · simp only [Bool.not_eq_true] at hp
      simp [hp, ih, List.filter_cons]

/-- Model of splitPinned as the two filters. -/
theorem splitPinned_eq (l : List Post) :
    splitPinned l = (l.filter (fun p => p.pinned), l.filter (fun p => !p.pinned)) := by
  simpa using splitPinned_foldl l ([], [])

/-- Elements of a defined Go slice come from the sliced list. -/
theorem goSlice_mem {α : Type} (xs : List α) (s e : Int) (page : List α)
    (h : goSlice xs s e = some page) : ∀ a ∈ page, a ∈ xs := by
  intro a ha
  unfold goSlice at h
  split at h
  · cases h
    exact List.mem_of_mem_drop (List.mem_of_mem_take ha)
  · cases h

/-- The total returned by a successful Search is the size of the whole
filtered set, computed before sorting and pagination. -/
theorem memSearch_total (posts : List Post) (o : FilterOptions) (r : List Post × Nat)
    (h : memSearch posts o = some r) : r.2 = (searchFiltered posts o).length := by
  unfold memSearch at h
  obtain ⟨page, -, hr⟩ := Option.map_eq_some'.mp h
  rw [← hr]

/-- The shape of a successful pinned-split Search: the pinned posts of the
sorted filtered set, followed by the Go slice of the non-pinned remainder. -/
theorem memSearch_split (posts : List Post) (o : FilterOptions) (r : List Post × Nat)
    (hsp : o.splitPinned = true) (h : memSearch posts o = some r) :
    ∃ page,
      goSlice (searchNonPinned posts o)
          (pageBounds o ((searchNonPinned posts o).length : Int)).1
          (pageBounds o ((searchNonPinned posts o).length : Int)).2 = some page
        ∧ r = (searchPinned posts o ++ page, (searchFiltered posts o).length) := by
  unfold memSearch at h
  rw [hsp] at h
  simp only [if_true, splitPinned_eq] at h
  obtain ⟨page, hpage, hr⟩ := Option.map_eq_some'.mp h
  exact ⟨page, hpage, hr.symm⟩

/-- Every entry of the bucket carries a positive stored count. -/
def posCounts (b : TaxBucket) : Prop :=
  ∀ e ∈ b, 0 < e.2

/-- Storing a nonnegative count keeps every stored count positive: the count
is stored only when nonzero, and the entry is deleted otherwise. -/
theorem posCounts_store (b : TaxBucket) (k : String) (c : Int) (hc : 0 ≤ c)
    (h : posCounts b) :
    posCounts (if c == 0 then eraseKV b k else insertKV b k c.toNat) := by
  split
  · intro e he
    exact h e (List.mem_filter.mp he).1
  · rename_i hz
    intro e he
    rcases List.mem_append.mp he with hl | hr
    · exact h e (List.mem_filter.mp hl).1
    · have he' : e = (k, c.toNat) := by simpa using hr
      subst he'
      simp only [beq_iff_eq] at hz
      simp only
      omega

/-- updateTaxonomyCount keeps every stored count positive. -/
theorem posCounts_update (b : TaxBucket) (taxonomy term : String) (delta : Int)
    (h : posCounts b) : posCounts (updateTaxonomyCount b taxonomy term delta) := by
  unfold updateTaxonomyCount
  apply posCounts_store _ _ _ _ h
  split <;> omega

/-- Any sequence of counter operations starting from an all-positive bucket
leaves an all-positive bucket. -/
theorem posCounts_foldl (ops : List (String × String × Int)) (b : TaxBucket)
    (h : posCounts b) :
    posCounts (ops.foldl (fun b op => updateTaxonomyCount b op.1 op.2.1 op.2.2) b) := by
  induction ops generalizing b with
  | nil => exact h
  | cons op rest ih =>
    exact ih _ (posCounts_update b op.1 op.2.1 op.2.2 h)

/-- When every streamed post is handled (its Create succeeds or its fallback
Update succeeds), the SyncAll loop reaches every post, and the returned error
is none exactly when the walk produced no enumeration error. -/
theorem syncAllLoop_all (ce ue : Post → Option String) (posts : List Post)
    (walkErrs : List String) (h : ∀ p ∈ posts, ce p = none ∨ ue p = none) :
    (syncAllLoop ce ue posts walkErrs).2 = posts.map postPid
    ∧ ((syncAllLoop ce ue posts walkErrs).1 = none ↔ walkErrs = []) := by
  induction posts with
  | nil => cases walkErrs <;> simp [syncAllLoop]
  | cons p rest ih =>
    obtain ⟨ih1, ih2⟩ := ih (fun q hq => h q (List.mem_cons_of_mem _ hq))
    rcases h p (List.mem_cons_self p rest) with hce | hue
    · simp [syncAllLoop, hce, ih1, ih2, postPid, PostPathID]
    · cases hce : ce p with
      | none => simp [syncAllLoop, hce, ih1, ih2, postPid, PostPathID]
      | some c => simp [syncAllLoop, hce, hue, ih1, ih2, postPid, PostPathID]

/-- When a streamed post fails both its Create and its fallback Update, the
SyncAll loop stops at that post: the update error is returned and no later
post is reached. -/
theorem syncAllLoop_abort (ce ue : Post → Option String) (pre : List Post) (p : Post)
    (suf : List Post) (walkErrs : List String) (e : String)
    (hpre : ∀ q ∈ pre, ce q = none ∨ ue q = none)
    (hc : ce p ≠ none) (hu : ue p = some e) :
    syncAllLoop ce ue (pre ++ p :: suf) walkErrs
      = (some ("error updating existing post " ++ p.postType ++ "/" ++ p.slug ++ ": " ++ e),
          pre.map postPid ++ [postPid p]) := by
  induction pre with
  | nil =>
    cases hce : ce p with
    | none => exact absurd hce hc
    | some c => simp [syncAllLoop, hce, hu, postPid, PostPathID]
  | cons q pre' ih =>
    have hih := ih (fun x hx => hpre x (List.mem_cons_of_mem _ hx))
    rcases hpre q (List.mem_cons_self q pre') with hce | hue
    · simp [syncAllLoop, hce, hih, postPid, PostPathID]
    · cases hceq : ce q with
      | none => simp [syncAllLoop, hceq, hih, postPid, PostPathID]
      | some c => simp [syncAllLoop, hceq, hue, hih, postPid, PostPathID]

/-! ## Claims -/

/-- Claim C1: the spec says an update adjusts taxonomy counts by symmetric
difference, leaving terms present in both the old and new sets untouched.
The code (IndexPost) decrements only removed terms but then increments every
term of the new set: updating tags from [a, b] to [b, c] with both counts at
1 removes tags:a, sets tags:c to 1, and drives the unchanged tags:b to 2
instead of leaving it at 1. -/
theorem c1_indexPost_double_counts_unchanged_terms :
    lookupKV (indexPostTaxonomy (some postOldTags) postNewTags bucketAB) (taxKey "tags" "b")
      = some 2
    ∧ lookupKV (indexPostTaxonomy (some postOldTags) postNewTags bucketAB) (taxKey "tags" "a")
      = none
    ∧ lookupKV (indexPostTaxonomy (some postOldTags) postNewTags bucketAB) (taxKey "tags" "c")
      = some 1
    ∧ (some 2 : Option Nat) ≠ some 1 := by decide

/-- Claim C4: the spec says an out-of-range page request yields an empty
slice and never panics. getPaginationBounds clamps only the end bound, so a
page past the end (here page 2 of size 10 over 3 items) produces the bounds
(10, 3), an invalid Go slice expression: Search panics instead of returning
an empty slice. -/
theorem c4_search_panics_on_out_of_range_page :
    getPaginationBounds 2 10 ((posts3.length : Nat) : Int) = (10, 3)
    ∧ goSlice posts3 10 3 = none
    ∧ memSearch posts3 optsPage2 = none := by decide

/-- Claim C8: the spec says a store miss followed by a successful filesystem
read returns that post with a nil error even when the cache refill fails.
The code returns newPost — the value Store.Create returned, which is nil
when Create failed — so the caller receives a nil post with a nil error and
the filesystem post is lost. -/
theorem c8_get_returns_nil_post_when_refill_fails :
    dcGet (Except.error "post not found: articles:from-disk") (Except.ok postFs)
        (fun _ => Except.error "backend failure") = Except.ok none
    ∧ (none : Option Post) ≠ some postFs := by
  exact ⟨rfl, by decide⟩

/-- Claim C3 counterexample: SQLiteStore.Create runs REPLACE INTO against
the UNIQUE post_id index, so a second Create of the existing identity
articles/a succeeds and replaces the first record instead of failing with an
already-exists error and leaving it unchanged. -/
theorem c3_sqlite_create_overwrites_existing_record :
    sqliteCreate (sqliteCreate [] postFirst).1 postSecond
      = ([(PostPathID "articles" "a", postSecond)], postSecond)
    ∧ postSecond ≠ postFirst := by decide

/-- Claim C3 amended: MemoryCacheStore.Create fails with an already-exists
error when the key is present (leaving the stored record untouched, since no
write happens) and succeeds exactly when the key is absent; SQLiteStore.Create
however always succeeds, storing the new post under its post id even when
the identity already exists. -/
theorem c3_create_duplicate_behavior (m : MemStore) (post p0 : Post)
    (h : lookupKV m (makeKey post.postType post.slug) = some p0) :
    memCreate m post
      = Except.error ("post already exists: " ++ makeKey post.postType post.slug)
    ∧ (∀ m' : MemStore, lookupKV m' (makeKey post.postType post.slug) = none →
        memCreate m' post = Except.ok (insertKV m' (makeKey post.postType post.slug) post)
        ∧ lookupKV (insertKV m' (makeKey post.postType post.slug) post)
            (makeKey post.postType post.slug) = some post)
    ∧ ∀ (table : List (String × Post)) (q : Post),
        lookupKV (sqliteCreate table q).1 (postPid q) = some q := by
  refine ⟨?_, ?_, ?_⟩
  · simp only [memCreate]
    rw [h]
    rfl
  · intro m' hm'
    refine ⟨?_, lookupKV_insertKV_self _ _ _⟩
    simp only [memCreate]
    rw [hm']
    rfl
  · intro table q
    exact lookupKV_insertKV_self table (postPid q) q

/-- Claim C3 witness: creating articles/a into a store already holding it
fails with the already-exists error. -/
theorem c3_create_duplicate_behavior_witness :
    memCreate memStoreOne postSecond
      = Except.error ("post already exists: "
          ++ makeKey postSecond.postType postSecond.slug) :=
  (c3_create_duplicate_behavior memStoreOne postSecond postFirst (by decide)).1

/-- Claim C5 counterexample: NewPaginator receives the full filtered total
(here 7) but stores the length of the page slice it was handed (here 2) in
its total-posts field, so the reported total is the page size, not the size
of the filtered set. -/
theorem c5_paginator_total_is_page_slice_length :
    (NewPaginator [postFirst, postSecond] 7 1 2 false).totalPosts = 2
    ∧ (2 : Int) ≠ 7 := by decide

/-- Claim C5 amended: the total returned by MemoryCacheStore.Search is the
size of the entire filtered set, invariant across page numbers; NewPaginator
however reports the length of the docs slice it is given as its total-posts
field, using the full total only for the page count. -/
theorem c5_total_semantics (posts : List Post) (o : FilterOptions) (n1 n2 : Int)
    (r1 r2 : List Post × Nat)
    (h1 : memSearch posts { o with pageNum := n1 } = some r1)
    (h2 : memSearch posts { o with pageNum := n2 } = some r2) :
    r1.2 = (searchFiltered posts o).length ∧ r1.2 = r2.2
    ∧ ∀ (docs : List Post) (total currentPage pageSize : Int) (f : Bool),
        (NewPaginator docs total currentPage pageSize f).totalPosts = (docs.length : Int) := by
  have e1 := memSearch_total _ _ _ h1
  have e2 := memSearch_total _ _ _ h2
  refine ⟨e1, ?_, ?_⟩
  · rw [e1, e2]
    rfl
  · intro docs total currentPage pageSize f
    rfl

/-- Claim C5 witness: page 1 of the three stored posts reports total 3, the
size of the filtered set. -/
theorem c5_total_semantics_witness :
    ((posts3, 3) : List Post × Nat).2 = (searchFiltered posts3 optsAny10).length :=
  (c5_total_semantics posts3 optsAny10 1 1 (posts3, 3) (posts3, 3)
    (by decide) (by decide)).1

/-- Claim C9 counterexample: in the in-memory backend an unset status filter
applies no constraint at all — a draft post passes the default filter — so
it is not the case that every backend returns only published posts by
default. -/
theorem c9_memory_backend_ignores_unset_status :
    postMatchesFilters postDraft optsNoStatus = true
    ∧ postDraft.status = "draft"
    ∧ optsNoStatus.filterStatus = "" := by decide

/-- Claim C9 amended: only the bleve-backed GetPosts path implements the
documented status semantics — unset defaults to published, the any sentinel
removes the constraint, anything else is matched as given. The in-memory
backend applies no constraint when the status filter is unset (its match is
blind to the post status) and otherwise requires exact equality, with no
any-sentinel handling. -/
theorem c9_status_filter_semantics :
    getPostsStatusMatch "" = some "published"
    ∧ getPostsStatusMatch "any" = none
    ∧ (∀ s, s ≠ "" → s ≠ "any" → getPostsStatusMatch s = some s)
    ∧ (∀ (post : Post) (o : FilterOptions), o.filterStatus = "" →
        ∀ st, postMatchesFilters { post with status := st } o = postMatchesFilters post o)
    ∧ (∀ (post : Post) (o : FilterOptions), o.filterStatus ≠ "" →
        postMatchesFilters post o = true → post.status = o.filterStatus) := by
  refine ⟨rfl, rfl, ?_, ?_, ?_⟩
  · intro s h1 h2
    simp [getPostsStatusMatch, h1, h2]
  · intro post o h st
    simp [postMatchesFilters, h]
  · intro post o h hm
    unfold postMatchesFilters at hm
    split at hm
    · exact absurd hm (by simp)
    · split at hm
      · exact absurd hm (by simp)
      · rename_i hc2
        by_contra hne
        apply hc2
        simp only [Bool.and_eq_true, bne_iff_ne]
        exact ⟨h, fun hh => hne hh.symm⟩

/-- Claim C9 witness: a draft status filter is passed through as an exact
constraint by the GetPosts path. -/
theorem c9_status_filter_semantics_witness :
    getPostsStatusMatch "draft" = some "draft" :=
  c9_status_filter_semantics.2.2.1 "draft" (by decide) (by decide)

/-- Claim C2: after any sequence of counter operations starting from an
empty bucket, every stored count is positive — a decrement floors at zero
and the entry is deleted rather than stored at zero — and every term
returned by GetTaxonomyTerms is read off a stored entry, hence one with
count strictly greater than zero. -/
theorem c2_taxonomy_counter_invariant (ops : List (String × String × Int)) (taxonomy : String) :
    (∀ e ∈ applyTaxOps ops, 0 < e.2)
    ∧ ∀ t ∈ getTaxonomyTerms (applyTaxOps ops) taxonomy,
        ∃ e ∈ applyTaxOps ops, 0 < e.2 ∧ t = strTrimPfx e.1 (taxonomy ++ ":") := by
  have hpos : posCounts (applyTaxOps ops) :=
    posCounts_foldl ops [] (by intro e he; cases he)
  refine ⟨hpos, ?_⟩
  intro t ht
  simp only [getTaxonomyTerms] at ht
  obtain ⟨k, hk, hteq⟩ := List.mem_map.mp ht
  have hk2 := List.Sublist.mem hk (List.takeWhile_sublist _)
  have hk3 := List.Sublist.mem hk2 (List.dropWhile_sublist _)
  have hk4 := (mem_sortLe _ _ _).mp hk3
  obtain ⟨e, he, hke⟩ := List.mem_map.mp hk4
  exact ⟨e, he, hpos e he, by rw [hke, hteq]⟩

/-- Claim C2 witness: after incrementing tags a and b and decrementing tags
a, the stored entry for tags b has a positive count. -/
theorem c2_taxonomy_counter_invariant_witness :
    0 < ((taxKey "tags" "b", 1) : String × Nat).2 :=
  (c2_taxonomy_counter_invariant opsC2 "tags").1 (taxKey "tags" "b", 1) (by decide)

/-- Claim C6: the coordinator Create writes to the filesystem first and
calls Store.Create exactly when that write succeeded; when Store.Create
fails it attempts the compensating filesystem delete, returning the original
store error when the delete succeeds and an error naming both the rollback
failure and the store error otherwise; a success is reported only when both
the write and the store create succeeded. -/
theorem c6_create_compensation (w s d : Option String) (post : Post) :
    (dcCreate w s d post).2.head? = some (SyncCall.fsWrite (postPid post))
    ∧ (SyncCall.storeCreate (postPid post) ∈ (dcCreate w s d post).2 ↔ w = none)
    ∧ (∀ e, w = none → s = some e →
        SyncCall.fsDelete (postPid post) ∈ (dcCreate w s d post).2
        ∧ (d = none → (dcCreate w s d post).1 = CreateResult.storeFailed e)
        ∧ ∀ de, d = some de → (dcCreate w s d post).1 = CreateResult.rollbackFailed de e)
    ∧ ∀ p, (dcCreate w s d post).1 = CreateResult.ok p → w = none ∧ s = none ∧ p = post := by
  cases w <;> cases s <;> cases d <;> simp [dcCreate, postPid]

/-- Claim C6 witness: with a successful write, a failing store create, and a
successful compensating delete, the original store error is reported. -/
theorem c6_create_compensation_witness :
    (dcCreate none (some "backend failure") none postFs).1
      = CreateResult.storeFailed "backend failure" :=
  ((c6_create_compensation none (some "backend failure") none postFs).2.2.1
    "backend failure" rfl rfl).2.1 rfl

/-- Claim C7 counterexample: when the first streamed post fails Create and
its fallback Update also fails, SyncAll returns that update error at once
and the second streamed post is never offered to the store — a per-item
store error aborts the overall walk. -/
theorem c7_syncAll_aborts_on_item_error :
    syncAll [syncPostA, syncPostB] [] createAlways updateFailsA
      = (some "error updating existing post articles/a: backend failure", ["articles/a"])
    ∧ postPid syncPostB ∉ (syncAll [syncPostA, syncPostB] [] createAlways updateFailsA).2 := by
  decide

/-- Claim C7 amended: each streamed post is offered to Store.Create, and on
any Create failure Store.Update is attempted; when every post is handled the
whole stream is processed and the first filesystem enumeration error (if
any) is returned after the walk; but when a post fails both Create and
Update, its update error is returned immediately and the remaining posts are
not processed. -/
theorem c7_syncAll_walk_policy (ce ue : Post → Option String) (walkErrs : List String) :
    (∀ posts : List Post, (∀ p ∈ posts, ce p = none ∨ ue p = none) →
        (syncAll posts walkErrs ce ue).2 = posts.map postPid
        ∧ ((syncAll posts walkErrs ce ue).1 = none ↔ walkErrs = []))
    ∧ ∀ (pre : List Post) (p : Post) (suf : List Post) (e : String),
        (∀ q ∈ pre, ce q = none ∨ ue q = none) → ce p ≠ none → ue p = some e →
        (syncAll (pre ++ p :: suf) walkErrs ce ue).2 = pre.map postPid ++ [postPid p]
        ∧ (syncAll (pre ++ p :: suf) walkErrs ce ue).1
            = some ("error updating existing post " ++ p.postType ++ "/" ++ p.slug ++ ": " ++ e) := by
  constructor
  · intro posts h
    exact syncAllLoop_all ce ue posts walkErrs h
  · intro pre p suf e hpre hc hu
    have habort := syncAllLoop_abort ce ue pre p suf walkErrs e hpre hc hu
    unfold syncAll
    rw [habort]
    exact ⟨rfl, rfl⟩

/-- Claim C7 witness: a stream whose second post fails both store calls is
processed up to and including that post only. -/
theorem c7_syncAll_walk_policy_witness :
    (syncAll [syncPostB, syncPostA] [] createAlways updateFailsA).2
      = [syncPostB].map postPid ++ [postPid syncPostA] :=
  ((c7_syncAll_walk_policy createAlways updateFailsA []).2 [syncPostB] syncPostA []
    "backend failure" (by decide) (by decide) (by decide)).1

/-- Claim C10: in a successful pinned-split Search the returned page is the
pinned posts of the sorted, filtered, pre-pagination set followed by the Go
slice of the non-pinned remainder (which contains no pinned post), the
reported total counts pinned and non-pinned posts together, and every
successful page for the same filter starts with that same full pinned
list. -/
theorem c10_pinned_split (posts : List Post) (o : FilterOptions) (r : List Post × Nat)
    (hsp : o.splitPinned = true) (h : memSearch posts o = some r) :
    (∃ page,
        goSlice (searchNonPinned posts o)
            (pageBounds o ((searchNonPinned posts o).length : Int)).1
            (pageBounds o ((searchNonPinned posts o).length : Int)).2 = some page
          ∧ r.1 = searchPinned posts o ++ page
          ∧ ∀ p ∈ page, p.pinned = false)
    ∧ r.2 = (searchFiltered posts o).length
    ∧ ∀ (n : Int) (r' : List Post × Nat),
        memSearch posts { o with pageNum := n } = some r' →
        r'.1.take (searchPinned posts o).length = searchPinned posts o := by
  obtain ⟨page, hpage, hr⟩ := memSearch_split posts o r hsp h
  refine ⟨⟨page, hpage, ?_, ?_⟩, ?_, ?_⟩
  · rw [hr]
  · intro p hp
    have hmem : p ∈ (searchSorted posts o).filter (fun q => !q.pinned) :=
      goSlice_mem _ _ _ _ hpage p hp
    have := (List.mem_filter.mp hmem).2
    simpa using this
  · rw [hr]
  · intro n r' h'
    have hsp' : ({ o with pageNum := n } : FilterOptions).splitPinned = true := hsp
    obtain ⟨page', hpage', hr'⟩ := memSearch_split posts _ r' hsp' h'
    rw [hr']
    have hpe : searchPinned posts { o with pageNum := n } = searchPinned posts o := rfl
    show (searchPinned posts { o with pageNum := n } ++ page').take
        (searchPinned posts o).length = searchPinned posts o
    rw [hpe]
    exact List.take_left _ _

/-- Claim C10 witness: page 1 of the seven-post pinned-split scenario
reports total 7, the two pinned posts prepended to the first two non-pinned
posts. -/
theorem c10_pinned_split_witness :
    (([{ postType := "articles", slug := "p1", pinned := true },
       { postType := "articles", slug := "p2", pinned := true },
       { postType := "articles", slug := "n1" },
       { postType := "articles", slug := "n2" }], 7) : List Post × Nat).2
      = (searchFiltered posts7 optsSplit1).length :=
  (c10_pinned_split posts7 optsSplit1 _ rfl (by decide)).2.1

end Downcache